import Mathlib

/-!
Shallow embedding of the rendering orchestration core of
`chrome-headless-render-pdf` (src/index.ts), and proofs of the claims
about it.

Conventions of the embedding:
* TypeScript optional values (`T | undefined`) become `Option T`;
  `undefined` is `none`.
* JavaScript numbers that the claims touch are modelled as `ℚ`
  (no claim depends on floating-point rounding or on `NaN`).
* Event-driven / timer-driven code is modelled by explicit state passing:
  timers become arithmetic over a millisecond clock, event streams become
  lists of events, and fallible asynchronous steps become `Except` values
  chosen by an explicit "world" record.
* Side effects that the claims mention (spawning or killing the browser,
  writing a file, logging an error, closing the protocol session) are
  recorded in an emitted action trace (a `List` of action constructors),
  in execution order.
-/

namespace RenderPdfModel

/-- JavaScript string truthiness: `undefined` and `""` are falsy. -/
def jsTruthyStr : Option String → Bool
  | none => false
  | some s => s ≠ ""

/-- Collect a maximal leading run of decimal digits (as digit values),
returning the digits and the rest of the characters. -/
def takeDigits : List Char → List Nat × List Char
  | [] => ([], [])
  | c :: cs =>
    if c.isDigit then
      let r := takeDigits cs
      ((c.toNat - 48) :: r.1, r.2)
    else ([], c :: cs)

/-- Digits (most significant first) to a natural number. -/
def digitsToNat (ds : List Nat) : Nat := ds.foldl (fun a d => a * 10 + d) 0

/-- Model of JavaScript `parseFloat` on plain decimal notation (optional
sign, integer part, optional fraction; trailing garbage ignored), which is
how the translator parses `paperWidth`/`paperHeight` decimal strings.
`none` models `NaN` (no leading number could be parsed). Exponent and
`Infinity` forms are outside the modelled scope; no claim touches them. -/
def parseFloatQ (s : String) : Option ℚ :=
  let cs := s.toList
  let signed : Bool × List Char :=
    match cs with
    | '-' :: r => (true, r)
    | '+' :: r => (false, r)
    | r => (false, r)
  let ip := takeDigits signed.2
  let fp : List Nat × List Char :=
    match ip.2 with
    | '.' :: r => takeDigits r
    | r => ([], r)
  if ip.1.isEmpty ∧ fp.1.isEmpty then none
  else
    let mag : ℚ := (digitsToNat ip.1 : ℚ) + (digitsToNat fp.1 : ℚ) / (10 ^ fp.1.length : ℚ)
    some (if signed.1 then -mag else mag)

/-- User-facing constructor options (`ConstructorOptions` in src/index.ts):
every field is optional, `none` = the caller did not set it. -/
structure ConstructorOptions where
  printLogs : Option Bool := none
  printErrors : Option Bool := none
  chromeBinary : Option String := none
  chromeOptions : Option (List String) := none
  remoteHost : Option String := none
  remotePort : Option Nat := none
  noMargins : Option Bool := none
  landscape : Option Bool := none
  includeBackground : Option Bool := none
  paperWidth : Option String := none
  paperHeight : Option String := none
  preferCSSPageSize : Option Bool := none
  pageRanges : Option String := none
  scale : Option ℚ := none
  displayHeaderFooter : Option Bool := none
  headerTemplate : Option String := none
  footerTemplate : Option String := none
  jsTimeBudget : Option Nat := none
  animationTimeBudget : Option Nat := none
  traceFilename : Option String := none
  logNetworkRequests : Option Bool := none
deriving Repr, DecidableEq

/-- `this.options` after the `RenderPDF` constructor ran its `def(key,
defaultValue)` resolution. Fields keep the TypeScript optional type; a
field whose constructor default is a concrete value (e.g. `false`, `9222`,
`5000`) is always `some` after resolution. -/
structure ResolvedOptions where
  printLogs : Option Bool
  printErrors : Option Bool
  chromeBinary : Option String
  chromeOptions : Option (List String)
  remoteHost : Option String
  remotePort : Option Nat
  noMargins : Option Bool
  landscape : Option Bool
  paperWidth : Option String
  paperHeight : Option String
  preferCSSPageSize : Option Bool
  includeBackground : Option Bool
  pageRanges : Option String
  scale : Option ℚ
  displayHeaderFooter : Option Bool
  headerTemplate : Option String
  footerTemplate : Option String
  jsTimeBudget : Option Nat
  animationTimeBudget : Option Nat
  traceFilename : Option String
  logNetworkRequests : Option Bool
deriving Repr, DecidableEq

/-- `def(key, defaultValue)` from the constructor:
`options?.[key] === undefined ? defaultValue : options[key]`. -/
def jsDef {α : Type} (v : Option α) (defaultValue : Option α) : Option α :=
  match v with
  | none => defaultValue
  | some x => some x

/-- The `RenderPDF` constructor (src/index.ts lines 75-106): resolves every
option with its default. -/
def resolveOptions (options : ConstructorOptions) : ResolvedOptions where
  printLogs := jsDef options.printLogs (some false)
  printErrors := jsDef options.printErrors (some true)
  chromeBinary := jsDef options.chromeBinary none
  chromeOptions := jsDef options.chromeOptions (some [])
  remoteHost := jsDef options.remoteHost none
  remotePort := jsDef options.remotePort (some 9222)
  noMargins := jsDef options.noMargins (some false)
  landscape := jsDef options.landscape none
  paperWidth := jsDef options.paperWidth none
  paperHeight := jsDef options.paperHeight none
  preferCSSPageSize := jsDef options.preferCSSPageSize none
  includeBackground := jsDef options.includeBackground none
  pageRanges := jsDef options.pageRanges none
  scale := jsDef options.scale none
  displayHeaderFooter := jsDef options.displayHeaderFooter (some false)
  headerTemplate := jsDef options.headerTemplate none
  footerTemplate := jsDef options.footerTemplate none
  jsTimeBudget := jsDef options.jsTimeBudget (some 5000)
  animationTimeBudget := jsDef options.animationTimeBudget (some 5000)
  traceFilename := jsDef options.traceFilename none
  logNetworkRequests := jsDef options.logNetworkRequests (some false)

/-- Protocol-native print parameters (`RenderOptions`, i.e.
`Page.PrintToPDFRequest` fields populated by `generatePdfOptions`).
`paperWidth`/`paperHeight` hold the `parseFloat` result (`none` inside
models `NaN`). -/
structure RenderOptions where
  landscape : Option Bool := none
  marginTop : Option ℚ := none
  marginBottom : Option ℚ := none
  marginLeft : Option ℚ := none
  marginRight : Option ℚ := none
  printBackground : Option Bool := none
  paperWidth : Option (Option ℚ) := none
  paperHeight : Option (Option ℚ) := none
  preferCSSPageSize : Option Bool := none
  pageRanges : Option String := none
  displayHeaderFooter : Option Bool := none
  headerTemplate : Option String := none
  footerTemplate : Option String := none
  scale : Option ℚ := none
deriving Repr, DecidableEq

/-- The two `console.warn` calls of `generatePdfOptions`. -/
inductive PdfWarning where
  | scaleTooLow
  | scaleTooHigh
deriving Repr, DecidableEq

/-- JavaScript truthiness of an optional boolean (`if (x)` on
`boolean | undefined`). -/
def jsTruthyBool : Option Bool → Bool
  | none => false
  | some b => b

/-- `!!x` on `boolean | undefined` when `x !== undefined`. -/
def bangBang (b : Bool) : Bool := b

/-!
`generatePdfOptions` (src/index.ts lines 292-351) translates the resolved
options into print parameters with one `if` block per field.  Each block
is embedded as a step function on the accumulating `RenderOptions`
record, composed in source order.
-/

/-- `if (this.options.landscape !== undefined) options.landscape = !!...`. -/
def applyLandscape (o : ResolvedOptions) (e : RenderOptions) : RenderOptions :=
  match o.landscape with
  | some b => { e with landscape := some (bangBang b) }
  | none => e

/-- `if (this.options.noMargins) { options.marginTop = 0; ... }`. -/
def applyNoMargins (o : ResolvedOptions) (e : RenderOptions) : RenderOptions :=
  if jsTruthyBool o.noMargins then
    { e with marginTop := some 0, marginBottom := some 0,
             marginLeft := some 0, marginRight := some 0 }
  else e

/-- `if (this.options.includeBackground !== undefined) options.printBackground = !!...`. -/
def applyIncludeBackground (o : ResolvedOptions) (e : RenderOptions) : RenderOptions :=
  match o.includeBackground with
  | some b => { e with printBackground := some (bangBang b) }
  | none => e

/-- `if (this.options.paperWidth !== undefined) options.paperWidth = parseFloat(...)`. -/
def applyPaperWidth (o : ResolvedOptions) (e : RenderOptions) : RenderOptions :=
  match o.paperWidth with
  | some s => { e with paperWidth := some (parseFloatQ s) }
  | none => e

/-- `if (this.options.paperHeight !== undefined) options.paperHeight = parseFloat(...)`. -/
def applyPaperHeight (o : ResolvedOptions) (e : RenderOptions) : RenderOptions :=
  match o.paperHeight with
  | some s => { e with paperHeight := some (parseFloatQ s) }
  | none => e

/-- `if (this.options.preferCSSPageSize !== undefined) options.preferCSSPageSize = !!...`. -/
def applyPreferCSSPageSize (o : ResolvedOptions) (e : RenderOptions) : RenderOptions :=
  match o.preferCSSPageSize with
  | some b => { e with preferCSSPageSize := some (bangBang b) }
  | none => e

/-- `if (this.options.pageRanges !== undefined) options.pageRanges = ...`. -/
def applyPageRanges (o : ResolvedOptions) (e : RenderOptions) : RenderOptions :=
  match o.pageRanges with
  | some s => { e with pageRanges := some s }
  | none => e

/-- `if (this.options.displayHeaderFooter !== undefined) options.displayHeaderFooter = !!...`. -/
def applyDisplayHeaderFooter (o : ResolvedOptions) (e : RenderOptions) : RenderOptions :=
  match o.displayHeaderFooter with
  | some b => { e with displayHeaderFooter := some (bangBang b) }
  | none => e

/-- `if (this.options.headerTemplate !== undefined) options.headerTemplate = ...`. -/
def applyHeaderTemplate (o : ResolvedOptions) (e : RenderOptions) : RenderOptions :=
  match o.headerTemplate with
  | some s => { e with headerTemplate := some s }
  | none => e

/-- `if (this.options.footerTemplate !== undefined) options.footerTemplate = ...`. -/
def applyFooterTemplate (o : ResolvedOptions) (e : RenderOptions) : RenderOptions :=
  match o.footerTemplate with
  | some s => { e with footerTemplate := some s }
  | none => e

/-- The body of the scale `if` block (lines 338-347): the local mutable
`scale` variable together with the warnings printed while clamping it. -/
def clampScale (s : ℚ) : ℚ × List PdfWarning :=
  let r1 : ℚ × List PdfWarning :=
    if s < (1 : ℚ) / 10 then ((1 : ℚ) / 10, [PdfWarning.scaleTooLow]) else (s, [])
  if r1.1 > 2 then ((2 : ℚ), r1.2 ++ [PdfWarning.scaleTooHigh]) else r1

/-- `if (this.options.scale !== undefined) { ...clamp...; options.scale = scale; }`. -/
def applyScale (o : ResolvedOptions) (e : RenderOptions) :
    RenderOptions × List PdfWarning :=
  match o.scale with
  | some s => ({ e with scale := some (clampScale s).1 }, (clampScale s).2)
  | none => (e, [])

/-- `generatePdfOptions`: the `if` blocks in source order, starting from
the empty parameter record, returning the parameters and the warnings. -/
def generatePdfOptions (o : ResolvedOptions) : RenderOptions × List PdfWarning :=
  applyScale o
    (applyFooterTemplate o
      (applyHeaderTemplate o
        (applyDisplayHeaderFooter o
          (applyPageRanges o
            (applyPreferCSSPageSize o
              (applyPaperHeight o
                (applyPaperWidth o
                  (applyIncludeBackground o
                    (applyNoMargins o
                      (applyLandscape o {}))))))))))

/-!
### Animation-settle stage (src/index.ts lines 266-277)

The stage races two timers against the stream of `layerPainted` events:
`maxTimeout = setTimeout(resolve, animationTimeBudget)` (the ceiling) and a
settle timer `timeout = setTimeout(resolve, 100)` which every paint event
clears and re-arms for another 100 ms.  We model wall-clock time in
milliseconds: `paints` is the increasing list of paint-event times, the
state argument is the current expiry time of the settle timer (initially
100), and the result is the time at which the promise resolves.  A paint
arriving at or after the earliest pending expiry is ignored (the promise
already resolved).
-/

/-- Process the paint events against the settle timer; `expiry` is the
current settle-timer deadline, `ceiling` the `animationTimeBudget`
deadline. -/
def settleLoop (ceiling : Nat) : List Nat → Nat → Nat
  | [], expiry => min expiry ceiling
  | p :: ps, expiry =>
    if p < min expiry ceiling then settleLoop ceiling ps (p + 100)
    else min expiry ceiling

/-- Resolution time of the `Wait for animations` promise, given the paint
event times and the ceiling (`animationTimeBudget`). -/
def animationSettleTime (ceiling : Nat) (paints : List Nat) : Nat :=
  settleLoop ceiling paints 100

/-- Paint events arriving every 50 ms starting after offset `50 * k`:
times `50*(k+1), 50*(k+2), ...`, `n` of them. -/
def paintsEvery50From (k : Nat) : Nat → List Nat
  | 0 => []
  | n + 1 => 50 * (k + 1) :: paintsEvery50From (k + 1) n

/-- Paint events arriving every 50 ms: times 50, 100, ..., 50*n. -/
def paintsEvery50 (n : Nat) : List Nat := paintsEvery50From 0 n

/-!
### Debug-port polling (src/index.ts lines 486-508, 532-544)

`waitForDebugPort(timeout = 30000)` runs two `while (timeout > 0)` loops.
The first polls `isPortOpen` (a raw TCP connect-and-close); on failure it
decrements `timeout` by 10 and sleeps 10 ms; on success it breaks.  The
second retries `checkChromeVersion` on the same remaining budget and
returns on success.  A final unconditional `checkChromeVersion()` call
runs after both loops; its protocol connection failing rejects the whole
call (the version query itself failing is swallowed inside
`checkChromeVersion`).

The model indexes each attempt by the elapsed milliseconds at which it is
made; `isOpen e` / `versionOk e` say whether the attempt made at elapsed
time `e` succeeds.  Attempts themselves are instantaneous; only the 10 ms
sleeps advance the clock.
-/

/-- A `while (timeout > 0) { try { attempt; stop } catch { timeout -= 10;
await wait(10) } }` loop; both loops of `waitForDebugPort` have this
shape (the first attempts `isPortOpen`, the second
`checkChromeVersion`).  Returns (remaining timeout, elapsed ms, whether
the loop stopped on a successful attempt). -/
def pollLoop (attempt : Nat → Bool) : Nat → Nat → Nat × Nat × Bool
  | t, e =>
    if h : 0 < t then
      if attempt e then (t, e, true)
      else pollLoop attempt (t - 10) (e + 10)
    else (t, e, false)
termination_by t _ => t
decreasing_by omega

/-- `waitForDebugPort`: the `isPortOpen` loop, then the
`checkChromeVersion` loop on the remaining budget, then the final
unconditional `checkChromeVersion()`.  Returns (whether the call
succeeds, elapsed ms when it settles). -/
def waitForDebugPort (isOpen versionOk : Nat → Bool) (timeout : Nat) :
    Bool × Nat :=
  let r1 := pollLoop isOpen timeout 0
  let r2 := pollLoop versionOk r1.1 r1.2.1
  if r2.2.2 then (true, r2.2.1)
  else (versionOk r2.2.1, r2.2.1)

/-!
### killChrome (src/index.ts lines 480-484)

`killChrome()` is `if (!this.options.remoteHost) { this.chrome!.kill(...) }`.
`this.chrome` is initialised to `null` in the constructor (line 108) and
only set by `spawnChrome`.  The non-null assertion `!` is erased at
runtime, so when `chrome` is still `null` the member access throws a
`TypeError`.
-/

/-- Outcome of a `killChrome()` call. -/
inductive KillOutcome where
  /-- `this.chrome!.kill` dereferenced a `null` handle: `TypeError`. -/
  | nullDeref
  /-- `SIGKILL` sent to the spawned process. -/
  | killed
  /-- remote host configured (truthy): no-op. -/
  | noop
deriving Repr, DecidableEq

/-- `killChrome`, as a function of the resolved `remoteHost` option and
the current `this.chrome` handle (`none` = `null`). -/
def killChrome (remoteHost : Option String) (chrome : Option Unit) :
    KillOutcome :=
  if jsTruthyStr remoteHost then KillOutcome.noop
  else
    match chrome with
    | none => KillOutcome.nullDeref
    | some _ => KillOutcome.killed

/-!
### Trace collector (src/index.ts lines 206-214)

`Tracing.on('dataCollected', e => traces.push(...e.value))` appends each
delivered fragment array to the in-memory buffer;
`Tracing.on('tracingComplete', ...)` writes `{traceEvents: traces}` once.
Fragments are modelled as strings.
-/

/-- A tracing-domain event delivery. -/
inductive TraceMsg where
  | dataCollected (value : List String)
  | tracingComplete
deriving Repr, DecidableEq

/-- Collector state: the fragment buffer, the documents written so far
(each write records the full `traceEvents` list it serialised). -/
structure TraceState where
  buffer : List String := []
  written : List (List String) := []
deriving Repr, DecidableEq

/-- One event delivery against the two `Tracing.on` handlers. -/
def traceStep (s : TraceState) : TraceMsg → TraceState
  | TraceMsg.dataCollected v => { s with buffer := s.buffer ++ v }
  | TraceMsg.tracingComplete => { s with written := s.written ++ [s.buffer] }

/-- Run the collector over a delivery sequence. -/
def runTraceCollector (msgs : List TraceMsg) : TraceState :=
  msgs.foldl traceStep {}

/-!
### renderPdf (src/index.ts lines 172-290)

`renderPdf` opens a protocol session (`await CDP(...)`), runs the staged
body inside `try { ... } finally { client.close(); }`, and returns the
PDF data.  Each awaited step can reject; the world record chooses each
outcome.  The base64 decode of `pdf.data` to a `Buffer` is elided: no
claim concerns the byte content, so the result carries the protocol data
string.  Session-visible effects are recorded in an action trace.
-/

/-- Actions emitted by one `renderPdf` call. -/
inductive RAction where
  | openSession
  | writeTrace (events : List String)
  | closeSession
deriving Repr, DecidableEq

/-- Outcomes of the awaited steps inside one `renderPdf` call. -/
structure SessionWorld where
  /-- `await CDP({host, port})` succeeds. -/
  connectOk : Bool := true
  /-- the three `enable` calls succeed. -/
  enableOk : Bool := true
  /-- `Tracing.start` succeeds (consulted only when tracing is on). -/
  tracingStartOk : Bool := true
  /-- `Page.navigate` succeeds. -/
  navigateOk : Bool := true
  /-- `Emulation.setVirtualTimePolicy` succeeds. -/
  virtualTimeOk : Bool := true
  /-- the `loadEventFired` wait completes. -/
  loadOk : Bool := true
  /-- the js-execution wait completes. -/
  jsOk : Bool := true
  /-- the animation-settle wait completes. -/
  animOk : Bool := true
  /-- result of `Page.printToPDF` (`ok` carries `pdf.data`). -/
  printResult : Except String String := Except.ok ""
  /-- `Tracing.end` succeeds (consulted only when tracing is on). -/
  tracingEndOk : Bool := true
  /-- the `dataCollected` fragment deliveries of this run, in order. -/
  traceFragments : List (List String) := []
deriving Repr

/-- The `try` body of `renderPdf`: the staged waits in source order; the
first rejecting step aborts the body with its error.  On the success path
with tracing on, `Tracing.end` is awaited and then `traceFileWritten`,
which resolves when the `tracingComplete` handler has written the document
containing all delivered fragments in order. -/
def renderPdfBody (o : ResolvedOptions) (w : SessionWorld) :
    Except String String × List RAction :=
  if !w.enableOk then (Except.error "enable failed", [])
  else if o.traceFilename.isSome && !w.tracingStartOk then
    (Except.error "Tracing.start failed", [])
  else if !w.navigateOk then (Except.error "Page.navigate failed", [])
  else if !w.virtualTimeOk then
    (Except.error "setVirtualTimePolicy failed", [])
  else if !w.loadOk then (Except.error "load wait failed", [])
  else if !w.jsOk then (Except.error "js wait failed", [])
  else if !w.animOk then (Except.error "animation wait failed", [])
  else
    match w.printResult with
    | Except.error e => (Except.error e, [])
    | Except.ok data =>
      if o.traceFilename.isSome then
        if w.tracingEndOk then
          (Except.ok data, [RAction.writeTrace w.traceFragments.flatten])
        else (Except.error "Tracing.end failed", [])
      else (Except.ok data, [])

/-- `renderPdf`: session open, `try` body, `finally client.close()`.  If
the initial connect rejects, no session was opened and nothing is closed;
otherwise `closeSession` is emitted after the body, whether it succeeded
or rejected. -/
def renderPdf (o : ResolvedOptions) (w : SessionWorld) :
    Except String String × List RAction :=
  if !w.connectOk then (Except.error "CDP connect failed", [])
  else
    let body := renderPdfBody o w
    (body.1, RAction.openSession :: body.2 ++ [RAction.closeSession])

/-!
### Batch and single-job entry points (src/index.ts lines 132-170)

The static entry points construct a renderer, `connectToChrome` (spawning
a local browser unless a remote host is configured), render, and
`killChrome`.  Per-job render outcomes are abstracted by an
`Except String String` value (ok carries the PDF data); process-level
effects are recorded in an action trace.
-/

/-- Actions emitted by the static entry points. -/
inductive BAction where
  | spawnChrome
  | saveFile (filename : String)
  | logError (msg : String)
  | kill (outcome : KillOutcome)
deriving Repr, DecidableEq

/-- Is this action a `killChrome()` call (whatever its outcome)? -/
def isKillAction : BAction → Bool
  | BAction.kill _ => true
  | _ => false

/-- `connectToChrome` (lines 415-421), on its success path: spawns a local
browser (setting `this.chrome`) unless `remoteHost` is truthy, then waits
for the debug port.  Returns the emitted actions and the resulting
`this.chrome` handle. -/
def connectToChrome (remoteHost : Option String) :
    List BAction × Option Unit :=
  if jsTruthyStr remoteHost then ([], none)
  else ([BAction.spawnChrome], some ())

/-- The `for (const job of pairs)` loop of `generateMultiplePdf`: each
iteration renders, writes the file on success, and on failure logs the
error and continues.  `i` is the index of the first remaining job. -/
def batchJobs (renders : Nat → Except String String) :
    Nat → List (String × String) → List BAction
  | _, [] => []
  | i, p :: ps =>
    (match renders i with
     | Except.ok _ => [BAction.saveFile p.2]
     | Except.error e => [BAction.logError e]) ++ batchJobs renders (i + 1) ps

/-- `generateMultiplePdf` (lines 157-170): connect once, run the job loop,
`killChrome()` once at the end.  `renders i` is the outcome of job `i`;
`pairs` maps each job to `(url, pdf filename)`. -/
def generateMultiplePdf (remoteHost : Option String)
    (renders : Nat → Except String String)
    (pairs : List (String × String)) : List BAction :=
  let conn := connectToChrome remoteHost
  conn.1 ++ batchJobs renders 0 pairs ++
    [BAction.kill (killChrome remoteHost conn.2)]

/-- `generateSinglePdf` (lines 132-143): connect, render inside
`try/catch` (catch logs the error), `killChrome()`.  The returned
`Except` is the promise: it resolves (`ok`) even when the render failed.
If `connectToChrome` itself rejects, the rejection propagates before the
`try`, and `killChrome` never runs. -/
def generateSinglePdf (remoteHost : Option String) (connectOk : Bool)
    (render : Except String String) (filename : String) :
    Except String Unit × List BAction :=
  if !connectOk then (Except.error "connect failed", [])
  else
    let conn := connectToChrome remoteHost
    let tryPart :=
      match render with
      | Except.ok _ => [BAction.saveFile filename]
      | Except.error e => [BAction.logError e]
    (Except.ok (),
     conn.1 ++ tryPart ++ [BAction.kill (killChrome remoteHost conn.2)])

/-- `generatePdfBuffer` (lines 145-155): connect, then
`try { return render } catch { log } finally { killChrome() }`.  On a
render failure the catch swallows the error and the promise resolves with
`undefined`, modelled as `Except.ok none`. -/
def generatePdfBuffer (remoteHost : Option String) (connectOk : Bool)
    (render : Except String String) :
    Except String (Option String) × List BAction :=
  if !connectOk then (Except.error "connect failed", [])
  else
    let conn := connectToChrome remoteHost
    match render with
    | Except.ok b =>
      (Except.ok (some b),
       conn.1 ++ [BAction.kill (killChrome remoteHost conn.2)])
    | Except.error e =>
      (Except.ok none,
       conn.1 ++ [BAction.logError e,
                  BAction.kill (killChrome remoteHost conn.2)])

/-! ## Characterization of the translator -/

theorem jsDef_none_id {α : Type} (v : Option α) : jsDef v none = v := by
  cases v <;> rfl

theorem jsDef_some_default {α : Type} (v : Option α) (d : α) :
    jsDef v (some d) = some (v.getD d) := by
  cases v <;> rfl

theorem applyLandscape_eq (o : ResolvedOptions) (e : RenderOptions) :
    applyLandscape o e =
      { e with landscape := (o.landscape.elim e.landscape (fun b => some (bangBang b))) } := by
  cases h : o.landscape <;> simp only [applyLandscape, h, Option.elim]

theorem applyNoMargins_eq (o : ResolvedOptions) (e : RenderOptions) :
    applyNoMargins o e =
      { e with
        marginTop := if jsTruthyBool o.noMargins then some 0 else e.marginTop,
        marginBottom := if jsTruthyBool o.noMargins then some 0 else e.marginBottom,
        marginLeft := if jsTruthyBool o.noMargins then some 0 else e.marginLeft,
        marginRight := if jsTruthyBool o.noMargins then some 0 else e.marginRight } := by
  by_cases h : jsTruthyBool o.noMargins <;> simp [applyNoMargins, h]

theorem applyIncludeBackground_eq (o : ResolvedOptions) (e : RenderOptions) :
    applyIncludeBackground o e =
      { e with printBackground :=
          (o.includeBackground.elim e.printBackground (fun b => some (bangBang b))) } := by
  cases h : o.includeBackground <;> simp only [applyIncludeBackground, h, Option.elim]

theorem applyPaperWidth_eq (o : ResolvedOptions) (e : RenderOptions) :
    applyPaperWidth o e =
      { e with paperWidth :=
          (o.paperWidth.elim e.paperWidth (fun s => some (parseFloatQ s))) } := by
  cases h : o.paperWidth <;> simp only [applyPaperWidth, h, Option.elim]

theorem applyPaperHeight_eq (o : ResolvedOptions) (e : RenderOptions) :
    applyPaperHeight o e =
      { e with paperHeight :=
          (o.paperHeight.elim e.paperHeight (fun s => some (parseFloatQ s))) } := by
  cases h : o.paperHeight <;> simp only [applyPaperHeight, h, Option.elim]

theorem applyPreferCSSPageSize_eq (o : ResolvedOptions) (e : RenderOptions) :
    applyPreferCSSPageSize o e =
      { e with preferCSSPageSize :=
          (o.preferCSSPageSize.elim e.preferCSSPageSize (fun b => some (bangBang b))) } := by
  cases h : o.preferCSSPageSize <;> simp only [applyPreferCSSPageSize, h, Option.elim]

theorem applyPageRanges_eq (o : ResolvedOptions) (e : RenderOptions) :
    applyPageRanges o e =
      { e with pageRanges := (o.pageRanges.elim e.pageRanges (fun s => some s)) } := by
  cases h : o.pageRanges <;> simp only [applyPageRanges, h, Option.elim]

theorem applyDisplayHeaderFooter_eq (o : ResolvedOptions) (e : RenderOptions) :
    applyDisplayHeaderFooter o e =
      { e with displayHeaderFooter :=
          (o.displayHeaderFooter.elim e.displayHeaderFooter (fun b => some (bangBang b))) } := by
  cases h : o.displayHeaderFooter <;> simp only [applyDisplayHeaderFooter, h, Option.elim]

theorem applyHeaderTemplate_eq (o : ResolvedOptions) (e : RenderOptions) :
    applyHeaderTemplate o e =
      { e with headerTemplate :=
          (o.headerTemplate.elim e.headerTemplate (fun s => some s)) } := by
  cases h : o.headerTemplate <;> simp only [applyHeaderTemplate, h, Option.elim]

theorem applyFooterTemplate_eq (o : ResolvedOptions) (e : RenderOptions) :
    applyFooterTemplate o e =
      { e with footerTemplate :=
          (o.footerTemplate.elim e.footerTemplate (fun s => some s)) } := by
  cases h : o.footerTemplate <;> simp only [applyFooterTemplate, h, Option.elim]

theorem applyScale_eq (o : ResolvedOptions) (e : RenderOptions) :
    applyScale o e =
      ({ e with scale := (o.scale.elim e.scale (fun s => some (clampScale s).1)) },
       o.scale.elim [] (fun s => (clampScale s).2)) := by
  cases h : o.scale <;> simp only [applyScale, h, Option.elim]

/-- Full characterization of `generatePdfOptions` as a field-by-field
record, obtained by composing the per-field step equations. -/
theorem generatePdfOptions_eq (o : ResolvedOptions) :
    generatePdfOptions o =
    ({ landscape := o.landscape.elim none (fun b => some (bangBang b)),
       marginTop := if jsTruthyBool o.noMargins then some 0 else none,
       marginBottom := if jsTruthyBool o.noMargins then some 0 else none,
       marginLeft := if jsTruthyBool o.noMargins then some 0 else none,
       marginRight := if jsTruthyBool o.noMargins then some 0 else none,
       printBackground := o.includeBackground.elim none (fun b => some (bangBang b)),
       paperWidth := o.paperWidth.elim none (fun s => some (parseFloatQ s)),
       paperHeight := o.paperHeight.elim none (fun s => some (parseFloatQ s)),
       preferCSSPageSize := o.preferCSSPageSize.elim none (fun b => some (bangBang b)),
       pageRanges := o.pageRanges.elim none (fun s => some s),
       displayHeaderFooter := o.displayHeaderFooter.elim none (fun b => some (bangBang b)),
       headerTemplate := o.headerTemplate.elim none (fun s => some s),
       footerTemplate := o.footerTemplate.elim none (fun s => some s),
       scale := o.scale.elim none (fun s => some (clampScale s).1) },
     o.scale.elim [] (fun s => (clampScale s).2)) := by
  simp only [generatePdfOptions, applyLandscape_eq, applyNoMargins_eq,
    applyIncludeBackground_eq, applyPaperWidth_eq, applyPaperHeight_eq,
    applyPreferCSSPageSize_eq, applyPageRanges_eq, applyDisplayHeaderFooter_eq,
    applyHeaderTemplate_eq, applyFooterTemplate_eq, applyScale_eq]

theorem clampScale_low {s : ℚ} (h : s < 1 / 10) :
    clampScale s = (1 / 10, [PdfWarning.scaleTooLow]) := by
  simp only [clampScale]
  rw [if_pos h]
  norm_num

theorem clampScale_high {s : ℚ} (h : 2 < s) :
    clampScale s = (2, [PdfWarning.scaleTooHigh]) := by
  have h1 : ¬ (s < 1 / 10) := by linarith
  simp only [clampScale]
  rw [if_neg h1]
  rw [if_pos (show ((s, ([] : List PdfWarning)).1 > 2) from h)]
  rfl

theorem clampScale_id {s : ℚ} (h1 : 1 / 10 ≤ s) (h2 : s ≤ 2) :
    clampScale s = (s, []) := by
  have h1' : ¬ (s < 1 / 10) := not_lt.mpr h1
  have h2' : ¬ ((s, ([] : List PdfWarning)).1 > 2) := not_lt.mpr h2
  simp only [clampScale]
  rw [if_neg h1', if_neg h2']

/-! ## Claims about the translator -/

/-- C2: for every configuration that explicitly sets `scale := s`, the
translated print parameters contain scale `0.1` when `s < 0.1` (with the
low-clamp warning emitted), scale `2` when `s > 2` (with the high-clamp
warning emitted), and scale `s` with no warning otherwise. -/
theorem scale_clamp_spec (cfg : ConstructorOptions) (s : ℚ)
    (hs : cfg.scale = some s) :
    (s < 1 / 10 →
      (generatePdfOptions (resolveOptions cfg)).1.scale = some (1 / 10) ∧
      (generatePdfOptions (resolveOptions cfg)).2 = [PdfWarning.scaleTooLow]) ∧
    (2 < s →
      (generatePdfOptions (resolveOptions cfg)).1.scale = some 2 ∧
      (generatePdfOptions (resolveOptions cfg)).2 = [PdfWarning.scaleTooHigh]) ∧
    (1 / 10 ≤ s → s ≤ 2 →
      (generatePdfOptions (resolveOptions cfg)).1.scale = some s ∧
      (generatePdfOptions (resolveOptions cfg)).2 = []) := by
  have hres : (resolveOptions cfg).scale = some s := by
    simp [resolveOptions, jsDef_none_id, hs]
  rw [generatePdfOptions_eq]
  simp only [hres, Option.elim]
  refine ⟨fun h => ?_, fun h => ?_, fun h1 h2 => ?_⟩
  · rw [clampScale_low h]; exact ⟨rfl, rfl⟩
  · rw [clampScale_high h]; exact ⟨rfl, rfl⟩
  · rw [clampScale_id h1 h2]; exact ⟨rfl, rfl⟩

/-- Witness for C2: the three cases at scales 1/20, 3 and 1. -/
theorem scale_clamp_spec_witness :
    ((generatePdfOptions (resolveOptions { scale := some (1 / 20) })).1.scale = some (1 / 10) ∧
     (generatePdfOptions (resolveOptions { scale := some (1 / 20) })).2 = [PdfWarning.scaleTooLow]) ∧
    ((generatePdfOptions (resolveOptions { scale := some 3 })).1.scale = some 2 ∧
     (generatePdfOptions (resolveOptions { scale := some 3 })).2 = [PdfWarning.scaleTooHigh]) ∧
    ((generatePdfOptions (resolveOptions { scale := some 1 })).1.scale = some 1 ∧
     (generatePdfOptions (resolveOptions { scale := some 1 })).2 = []) :=
  ⟨(scale_clamp_spec { scale := some (1 / 20) } (1 / 20) rfl).1 (by norm_num),
   (scale_clamp_spec { scale := some 3 } 3 rfl).2.1 (by norm_num),
   (scale_clamp_spec { scale := some 1 } 1 rfl).2.2 (by norm_num) (by norm_num)⟩

/-- C9: for every configuration with `noMargins` set, the translated
print parameters contain all four margins equal to 0, whatever else
(including `paperWidth`/`paperHeight`) is configured. -/
theorem no_margins_spec (cfg : ConstructorOptions) (h : cfg.noMargins = some true) :
    (generatePdfOptions (resolveOptions cfg)).1.marginTop = some 0 ∧
    (generatePdfOptions (resolveOptions cfg)).1.marginBottom = some 0 ∧
    (generatePdfOptions (resolveOptions cfg)).1.marginLeft = some 0 ∧
    (generatePdfOptions (resolveOptions cfg)).1.marginRight = some 0 := by
  have hres : jsTruthyBool (resolveOptions cfg).noMargins = true := by
    simp [resolveOptions, jsDef_some_default, h, jsTruthyBool]
  rw [generatePdfOptions_eq]
  simp [hres]

/-- Witness for C9: no-margins together with both paper dimensions. -/
theorem no_margins_spec_witness :
    (generatePdfOptions (resolveOptions
      { noMargins := some true, paperWidth := some "11.5", paperHeight := some "8" })).1.marginTop = some 0 ∧
    (generatePdfOptions (resolveOptions
      { noMargins := some true, paperWidth := some "11.5", paperHeight := some "8" })).1.marginBottom = some 0 ∧
    (generatePdfOptions (resolveOptions
      { noMargins := some true, paperWidth := some "11.5", paperHeight := some "8" })).1.marginLeft = some 0 ∧
    (generatePdfOptions (resolveOptions
      { noMargins := some true, paperWidth := some "11.5", paperHeight := some "8" })).1.marginRight = some 0 :=
  no_margins_spec { noMargins := some true, paperWidth := some "11.5", paperHeight := some "8" } rfl

/-- C3 counterexample: with an empty configuration (the caller set
nothing), the translated parameters still contain
`displayHeaderFooter = false`, because the constructor defaults
`displayHeaderFooter` to `false` rather than leaving it undefined.  The
claim says a boolean option absent from the caller's configuration is
absent from the output; for `displayHeaderFooter` that is false. -/
theorem display_header_footer_counterexample :
    ({} : ConstructorOptions).displayHeaderFooter = none ∧
    (generatePdfOptions (resolveOptions {})).1.displayHeaderFooter = some false := by
  constructor
  · rfl
  · rw [generatePdfOptions_eq]
    rfl

/-- C3 amended: `landscape`, `includeBackground` and `preferCSSPageSize`
pass through exactly when explicitly set (absence is preserved), but
`displayHeaderFooter` is always populated, with the configured value or
`false` when unset; every other translated field is absent whenever its
configuration source is absent. -/
theorem bool_passthrough_amended (cfg : ConstructorOptions) :
    ((generatePdfOptions (resolveOptions cfg)).1.landscape = cfg.landscape) ∧
    ((generatePdfOptions (resolveOptions cfg)).1.printBackground = cfg.includeBackground) ∧
    ((generatePdfOptions (resolveOptions cfg)).1.preferCSSPageSize = cfg.preferCSSPageSize) ∧
    ((generatePdfOptions (resolveOptions cfg)).1.displayHeaderFooter =
        some (cfg.displayHeaderFooter.getD false)) ∧
    (cfg.noMargins = none →
      (generatePdfOptions (resolveOptions cfg)).1.marginTop = none ∧
      (generatePdfOptions (resolveOptions cfg)).1.marginBottom = none ∧
      (generatePdfOptions (resolveOptions cfg)).1.marginLeft = none ∧
      (generatePdfOptions (resolveOptions cfg)).1.marginRight = none) ∧
    (cfg.paperWidth = none → (generatePdfOptions (resolveOptions cfg)).1.paperWidth = none) ∧
    (cfg.paperHeight = none → (generatePdfOptions (resolveOptions cfg)).1.paperHeight = none) ∧
    (cfg.pageRanges = none → (generatePdfOptions (resolveOptions cfg)).1.pageRanges = none) ∧
    (cfg.headerTemplate = none → (generatePdfOptions (resolveOptions cfg)).1.headerTemplate = none) ∧
    (cfg.footerTemplate = none → (generatePdfOptions (resolveOptions cfg)).1.footerTemplate = none) ∧
    (cfg.scale = none → (generatePdfOptions (resolveOptions cfg)).1.scale = none) := by
  rw [generatePdfOptions_eq]
  refine ⟨?_, ?_, ?_, ?_, fun h => ?_, fun h => ?_, fun h => ?_, fun h => ?_,
    fun h => ?_, fun h => ?_, fun h => ?_⟩
  · cases h : cfg.landscape <;> simp [resolveOptions, jsDef_none_id, h, bangBang]
  · cases h : cfg.includeBackground <;> simp [resolveOptions, jsDef_none_id, h, bangBang]
  · cases h : cfg.preferCSSPageSize <;> simp [resolveOptions, jsDef_none_id, h, bangBang]
  · cases h : cfg.displayHeaderFooter <;>
      simp [resolveOptions, jsDef_some_default, h, bangBang]
  · have : jsTruthyBool (resolveOptions cfg).noMargins = false := by
      simp [resolveOptions, jsDef_some_default, h, jsTruthyBool]
    simp [this]
  · simp [resolveOptions, jsDef_none_id, h]
  · simp [resolveOptions, jsDef_none_id, h]
  · simp [resolveOptions, jsDef_none_id, h]
  · simp [resolveOptions, jsDef_none_id, h]
  · simp [resolveOptions, jsDef_none_id, h]
  · simp [resolveOptions, jsDef_none_id, h]

/-- Witness for C3 amended: at the empty configuration the implications
are discharged; the three truly-optional booleans stay absent while
`displayHeaderFooter` appears as `false`. -/
theorem bool_passthrough_amended_witness :
    (generatePdfOptions (resolveOptions {})).1.landscape = none ∧
    (generatePdfOptions (resolveOptions {})).1.printBackground = none ∧
    (generatePdfOptions (resolveOptions {})).1.preferCSSPageSize = none ∧
    (generatePdfOptions (resolveOptions {})).1.displayHeaderFooter = some false ∧
    (generatePdfOptions (resolveOptions {})).1.marginTop = none ∧
    (generatePdfOptions (resolveOptions {})).1.scale = none :=
  ⟨(bool_passthrough_amended {}).1,
   (bool_passthrough_amended {}).2.1,
   (bool_passthrough_amended {}).2.2.1,
   (bool_passthrough_amended {}).2.2.2.1,
   ((bool_passthrough_amended {}).2.2.2.2.1 rfl).1,
   (bool_passthrough_amended {}).2.2.2.2.2.2.2.2.2.2 rfl⟩

/-! ## Claim about killChrome -/

/-- C10: for an instance configured without a remote host, `killChrome`
before any browser was spawned dereferences the `null` process handle
(`TypeError`); with a (truthy) remote host configured it is a no-op in
every state of the instance. -/
theorem kill_chrome_spec (host : String) (hh : host ≠ "") (chrome : Option Unit) :
    killChrome none none = KillOutcome.nullDeref ∧
    killChrome (some host) chrome = KillOutcome.noop := by
  constructor
  · rfl
  · simp [killChrome, jsTruthyStr, hh]

/-- Witness for C10 at a concrete host, in both instance states. -/
theorem kill_chrome_spec_witness :
    (killChrome none none = KillOutcome.nullDeref ∧
     killChrome (some "example.com") none = KillOutcome.noop) ∧
    killChrome (some "example.com") (some ()) = KillOutcome.noop :=
  ⟨kill_chrome_spec "example.com" (by decide) none,
   (kill_chrome_spec "example.com" (by decide) (some ())).2⟩

/-! ## Claims about the animation-settle stage -/

theorem settleLoop_le (c : Nat) (ps : List Nat) : ∀ e, settleLoop c ps e ≤ c := by
  induction ps with
  | nil => intro e; exact Nat.min_le_right e c
  | cons p ps ih =>
    intro e
    simp only [settleLoop]
    by_cases h : p < min e c
    · rw [if_pos h]; exact ih (p + 100)
    · rw [if_neg h]; exact Nat.min_le_right e c

theorem settleLoop_every50 :
    ∀ (n k c : Nat), c ≤ 50 * (k + n) + 100 →
      settleLoop c (paintsEvery50From k n) (50 * k + 100) = c := by
  intro n
  induction n with
  | zero =>
    intro k c h
    simp only [paintsEvery50From, settleLoop]
    omega
  | succ n ih =>
    intro k c h
    simp only [paintsEvery50From, settleLoop]
    by_cases hc : 50 * (k + 1) < min (50 * k + 100) c
    · rw [if_pos hc]
      exact ih (k + 1) c (by omega)
    · rw [if_neg hc]
      omega

/-- C1: the animation-settle stage starts a 100 ms settle timer, resets
it to 100 ms on each paint event (fourth conjunct), and resolves no later
than the ceiling (first conjunct); with zero paint events it resolves at
100 ms (second conjunct), and with paint events every 50 ms that cover
the ceiling it resolves exactly at the ceiling, not earlier (third
conjunct; the default ceiling is 5000 ms from `animationTimeBudget`, see
`resolveOptions`). -/
theorem animation_settle_spec :
    (∀ c ps, animationSettleTime c ps ≤ c) ∧
    (∀ c, 100 ≤ c → animationSettleTime c [] = 100) ∧
    (∀ c n, c ≤ 50 * n + 100 → animationSettleTime c (paintsEvery50 n) = c) ∧
    (∀ c e p ps, p < min e c →
      settleLoop c (p :: ps) e = settleLoop c ps (p + 100)) := by
  refine ⟨fun c ps => settleLoop_le c ps 100, fun c h => ?_, fun c n h => ?_,
    fun c e p ps h => ?_⟩
  · simp only [animationSettleTime, settleLoop]
    omega
  · have h50 := settleLoop_every50 n 0 c (by omega)
    simpa [animationSettleTime, paintsEvery50] using h50
  · simp only [settleLoop, if_pos h]

/-- Witness for C1: with the default 5000 ms ceiling, zero paints resolve
at 100 ms and 50 ms-spaced paints resolve exactly at 5000 ms. -/
theorem animation_settle_spec_witness :
    animationSettleTime 5000 [] = 100 ∧
    animationSettleTime 5000 (paintsEvery50 98) = 5000 :=
  ⟨animation_settle_spec.2.1 5000 (by norm_num),
   animation_settle_spec.2.2.1 5000 98 (by norm_num)⟩

/-! ## Claims about debug-port polling -/

theorem pollLoop_zero (attempt : Nat → Bool) (e : Nat) :
    pollLoop attempt 0 e = (0, e, false) := by
  rw [pollLoop]
  simp

theorem pollLoop_success (attempt : Nat → Bool) (t e : Nat) (ht : 0 < t)
    (hs : attempt e = true) :
    pollLoop attempt t e = (t, e, true) := by
  rw [pollLoop]
  simp [ht, hs]

theorem pollLoop_step (attempt : Nat → Bool) (t e : Nat) (ht : 0 < t)
    (hf : attempt e = false) :
    pollLoop attempt t e = pollLoop attempt (t - 10) (e + 10) := by
  rw [pollLoop]
  simp [ht, hf]

theorem pollLoop_all_fail (attempt : Nat → Bool)
    (hfail : ∀ e, attempt e = false) :
    ∀ (k e : Nat), pollLoop attempt (10 * k) e = (0, e + 10 * k, false) := by
  intro k
  induction k with
  | zero => intro e; exact pollLoop_zero attempt e
  | succ k ih =>
    intro e
    rw [pollLoop_step attempt _ e (by omega) (hfail e)]
    have h2 : 10 * (k + 1) - 10 = 10 * k := by omega
    rw [h2, ih (e + 10)]
    have h3 : e + 10 + 10 * k = e + 10 * (k + 1) := by omega
    rw [h3]

theorem pollLoop_first_success (attempt : Nat → Bool) :
    ∀ (n t e : Nat), (∀ j, j < n → attempt (e + 10 * j) = false) →
      attempt (e + 10 * n) = true → 10 * n < t →
      pollLoop attempt t e = (t - 10 * n, e + 10 * n, true) := by
  intro n
  induction n with
  | zero =>
    intro t e hfail hsucc ht
    have hs : attempt e = true := by simpa using hsucc
    rw [pollLoop_success attempt t e (by omega) hs]
    rfl
  | succ n ih =>
    intro t e hfail hsucc ht
    have hf0 : attempt e = false := by simpa using hfail 0 (by omega)
    rw [pollLoop_step attempt t e (by omega) hf0]
    have hfail2 : ∀ j, j < n → attempt (e + 10 + 10 * j) = false := by
      intro j hj
      have h := hfail (j + 1) (by omega)
      have harr : e + 10 * (j + 1) = e + 10 + 10 * j := by omega
      rwa [harr] at h
    have hsucc2 : attempt (e + 10 + 10 * n) = true := by
      have harr : e + 10 * (n + 1) = e + 10 + 10 * n := by omega
      rwa [harr] at hsucc
    rw [ih (t - 10) (e + 10) hfail2 hsucc2 (by omega)]
    have e1 : t - 10 - 10 * n = t - 10 * (n + 1) := by omega
    have e2 : e + 10 + 10 * n = e + 10 * (n + 1) := by omega
    rw [e1, e2]

/-- C7: the debug port is polled at a fixed 10 ms interval; polling stops
at the first successful connection (first conjunct: `n` failed probes
then a success yields exactly `10 * n` ms elapsed with budget remaining);
when the budget is exhausted without a successful port probe, exactly one
final connection attempt is made and its outcome is the result (second
conjunct); for a port that never becomes connectable the call fails
exactly at budget exhaustion (third conjunct). -/
theorem wait_for_debug_port_spec :
    (∀ (isOpen : Nat → Bool) (t n : Nat),
      (∀ j, j < n → isOpen (10 * j) = false) → isOpen (10 * n) = true →
      10 * n < t → pollLoop isOpen t 0 = (t - 10 * n, 10 * n, true)) ∧
    (∀ (versionOk : Nat → Bool) (k : Nat),
      waitForDebugPort (fun _ => false) versionOk (10 * k) =
        (versionOk (10 * k), 10 * k)) ∧
    (∀ k : Nat, waitForDebugPort (fun _ => false) (fun _ => false) (10 * k) =
      (false, 10 * k)) := by
  have hfirst : ∀ (isOpen : Nat → Bool) (t n : Nat),
      (∀ j, j < n → isOpen (10 * j) = false) → isOpen (10 * n) = true →
      10 * n < t → pollLoop isOpen t 0 = (t - 10 * n, 10 * n, true) := by
    intro isOpen t n hf hs ht
    have h := pollLoop_first_success isOpen n t 0
      (fun j hj => by simpa using hf j hj) (by simpa using hs) ht
    simpa using h
  have hexhaust : ∀ (versionOk : Nat → Bool) (k : Nat),
      waitForDebugPort (fun _ => false) versionOk (10 * k) =
        (versionOk (10 * k), 10 * k) := by
    intro versionOk k
    simp only [waitForDebugPort]
    rw [pollLoop_all_fail (fun _ => false) (fun _ => rfl) k 0]
    simp only
    rw [pollLoop_zero versionOk (0 + 10 * k)]
    simp
  exact ⟨hfirst, hexhaust, fun k => hexhaust (fun _ => false) k⟩

/-- Witness for C7: a port connectable from 200 ms on, polled with a
5000 ms budget, succeeds at 200 ms elapsed; a never-connectable port with
the default 30000 ms budget fails exactly at 30000 ms. -/
theorem wait_for_debug_port_spec_witness :
    pollLoop (fun e => decide (200 ≤ e)) 5000 0 = (4800, 200, true) ∧
    waitForDebugPort (fun _ => false) (fun _ => false) 30000 = (false, 30000) := by
  constructor
  · have h := wait_for_debug_port_spec.1 (fun e => decide (200 ≤ e)) 5000 20
      (fun j hj => by simp only [decide_eq_false_iff_not]; omega)
      (by simp) (by omega)
    simpa using h
  · exact wait_for_debug_port_spec.2.2 3000

/-! ## Claims about renderPdf and the trace collector -/

/-- C4: whenever the protocol session was opened (the initial connect
succeeded), `renderPdf` emits `closeSession` as its last action — the
`finally` block closes the session before the result or the error leaves
the function — whatever the outcome of every stage. -/
theorem render_pdf_closes_session (o : ResolvedOptions) (w : SessionWorld)
    (h : w.connectOk = true) :
    ((renderPdf o w).2).getLast? = some RAction.closeSession ∧
    RAction.openSession ∈ (renderPdf o w).2 := by
  have hr : renderPdf o w =
      ((renderPdfBody o w).1,
       RAction.openSession :: (renderPdfBody o w).2 ++ [RAction.closeSession]) := by
    simp [renderPdf, h]
  rw [hr]
  constructor
  · rw [show RAction.openSession :: (renderPdfBody o w).2 ++ [RAction.closeSession] =
        (RAction.openSession :: (renderPdfBody o w).2) ++ [RAction.closeSession] from rfl]
    exact List.getLast?_concat _
  · exact List.mem_cons_self _ _

/-- Witness for C4: a run whose navigation stage fails still closes the
session last. -/
theorem render_pdf_closes_session_witness :
    ((renderPdf (resolveOptions {}) { navigateOk := false }).2).getLast? =
      some RAction.closeSession ∧
    RAction.openSession ∈ (renderPdf (resolveOptions {}) { navigateOk := false }).2 :=
  render_pdf_closes_session (resolveOptions {}) { navigateOk := false } rfl

theorem traceCollector_data (ds : List (List String)) :
    ∀ s : TraceState, (ds.map TraceMsg.dataCollected).foldl traceStep s =
      { s with buffer := s.buffer ++ ds.flatten } := by
  induction ds with
  | nil => intro s; simp
  | cons d ds ih =>
    intro s
    simp only [List.map, List.foldl, traceStep]
    rw [ih]
    simp [List.append_assoc]

/-- C8: with tracing on, for every sequence of `dataCollected` fragment
deliveries followed by `tracingComplete`, nothing is written before the
complete signal (first conjunct), and then exactly one trace document is
written, holding all fragments concatenated in delivery order (second
conjunct); and a `renderPdf` run with tracing requested that returns its
PDF bytes has written that document (and still closes the session last)
before returning (third conjunct). -/
theorem trace_collector_spec :
    (∀ ds : List (List String),
      (runTraceCollector (ds.map TraceMsg.dataCollected)).written = []) ∧
    (∀ ds : List (List String),
      runTraceCollector (ds.map TraceMsg.dataCollected ++ [TraceMsg.tracingComplete]) =
        { buffer := ds.flatten, written := [ds.flatten] }) ∧
    (∀ (o : ResolvedOptions) (w : SessionWorld) (data : String),
      o.traceFilename.isSome = true → (renderPdf o w).1 = Except.ok data →
      RAction.writeTrace w.traceFragments.flatten ∈ (renderPdf o w).2 ∧
      ((renderPdf o w).2).getLast? = some RAction.closeSession) := by
  refine ⟨fun ds => ?_, fun ds => ?_, fun o w data htf hok => ?_⟩
  · rw [runTraceCollector, traceCollector_data ds {}]
  · rw [runTraceCollector, List.foldl_append, traceCollector_data ds {}]
    simp [traceStep]
  · obtain ⟨cOk, eOk, tsOk, nOk, vOk, lOk, jOk, aOk, pr, teOk, tf⟩ := w
    cases cOk <;> cases eOk <;> cases tsOk <;> cases nOk <;> cases vOk <;>
      cases lOk <;> cases jOk <;> cases aOk <;> cases teOk <;> cases pr <;>
      simp_all [renderPdf, renderPdfBody, List.getLast?]

/-- Witness for C8: a successful traced run with fragment deliveries
`[["a"], ["b", "c"]]` writes the document `["a", "b", "c"]`. -/
theorem trace_collector_spec_witness :
    (runTraceCollector [TraceMsg.dataCollected ["a"], TraceMsg.dataCollected ["b", "c"],
        TraceMsg.tracingComplete] =
      { buffer := ["a", "b", "c"], written := [["a", "b", "c"]] }) ∧
    RAction.writeTrace ["a", "b", "c"] ∈
      (renderPdf (resolveOptions { traceFilename := some "trace.json" })
        { traceFragments := [["a"], ["b", "c"]] }).2 := by
  constructor
  · exact trace_collector_spec.2.1 [["a"], ["b", "c"]]
  · exact (trace_collector_spec.2.2
      (resolveOptions { traceFilename := some "trace.json" })
      { traceFragments := [["a"], ["b", "c"]] } "" rfl rfl).1

/-! ## Claims about the batch and single-job entry points -/

theorem batchJobs_actions (renders : Nat → Except String String) :
    ∀ (ps : List (String × String)) (i : Nat) (a : BAction),
      a ∈ batchJobs renders i ps →
      (∃ f, a = BAction.saveFile f) ∨ (∃ m, a = BAction.logError m) := by
  intro ps
  induction ps with
  | nil => intro i a ha; simp [batchJobs] at ha
  | cons p ps ih =>
    intro i a ha
    simp only [batchJobs, List.mem_append] at ha
    rcases ha with ha | ha
    · rcases hr : renders i with e | b <;> rw [hr] at ha <;>
        simp only [List.mem_singleton] at ha
      · exact Or.inr ⟨e, ha⟩
      · exact Or.inl ⟨p.2, ha⟩
    · exact ih (i + 1) a ha

theorem batchJobs_mem (renders : Nat → Except String String) :
    ∀ (ps : List (String × String)) (i j : Nat) (hj : j < ps.length),
      (∀ b, renders (i + j) = Except.ok b →
        BAction.saveFile (ps.get ⟨j, hj⟩).2 ∈ batchJobs renders i ps) ∧
      (∀ e, renders (i + j) = Except.error e →
        BAction.logError e ∈ batchJobs renders i ps) := by
  intro ps
  induction ps with
  | nil => intro i j hj; exact absurd hj (by simp)
  | cons p ps ih =>
    intro i j hj
    cases j with
    | zero =>
      constructor
      · intro b hb
        have hb' : renders i = Except.ok b := hb
        simp [batchJobs, hb']
      · intro e he
        have he' : renders i = Except.error e := he
        simp [batchJobs, he']
    | succ j =>
      have hj' : j < ps.length := by simpa using hj
      constructor
      · intro b hb
        have hb' : renders (i + 1 + j) = Except.ok b := by
          rwa [show i + 1 + j = i + (j + 1) from by omega]
        have hmem := (ih (i + 1) j hj').1 b hb'
        simp only [batchJobs, List.mem_append]
        exact Or.inr hmem
      · intro e he
        have he' : renders (i + 1 + j) = Except.error e := by
          rwa [show i + 1 + j = i + (j + 1) from by omega]
        have hmem := (ih (i + 1) j hj').2 e he'
        simp only [batchJobs, List.mem_append]
        exact Or.inr hmem

/-- C5: a multi-job batch (no remote host, so the browser is owned)
spawns the browser exactly once, calls `killChrome` exactly once — as its
very last action, after all jobs, with the process actually killed — and
each job's failure is logged for that job alone while every succeeding
job still writes its output file. -/
theorem generate_multiple_pdf_spec (renders : Nat → Except String String)
    (pairs : List (String × String)) :
    (generateMultiplePdf none renders pairs).count BAction.spawnChrome = 1 ∧
    ((generateMultiplePdf none renders pairs).filter isKillAction).length = 1 ∧
    (generateMultiplePdf none renders pairs).getLast? =
      some (BAction.kill KillOutcome.killed) ∧
    (∀ j (hj : j < pairs.length) b, renders j = Except.ok b →
      BAction.saveFile (pairs.get ⟨j, hj⟩).2 ∈ generateMultiplePdf none renders pairs) ∧
    (∀ j (_hj : j < pairs.length) e, renders j = Except.error e →
      BAction.logError e ∈ generateMultiplePdf none renders pairs) := by
  have hg : generateMultiplePdf none renders pairs =
      BAction.spawnChrome :: (batchJobs renders 0 pairs ++
        [BAction.kill KillOutcome.killed]) := by
    simp [generateMultiplePdf, connectToChrome, jsTruthyStr, killChrome]
  have hnospawn : BAction.spawnChrome ∉ batchJobs renders 0 pairs := by
    intro hmem
    rcases batchJobs_actions renders pairs 0 _ hmem with ⟨f, hf⟩ | ⟨m, hm⟩ <;>
      simp_all
  refine ⟨?_, ?_, ?_, ?_, ?_⟩
  · rw [hg]
    rw [List.count_cons_self]
    rw [List.count_append]
    rw [List.count_eq_zero.mpr hnospawn]
    simp
  · rw [hg]
    have hfilter : (batchJobs renders 0 pairs).filter isKillAction = [] := by
      rw [List.filter_eq_nil_iff]
      intro a ha
      rcases batchJobs_actions renders pairs 0 a ha with ⟨f, hf⟩ | ⟨m, hm⟩
      · simp [hf, isKillAction]
      · simp [hm, isKillAction]
    simp [List.filter_append, hfilter, isKillAction]
  · rw [hg]
    rw [show BAction.spawnChrome :: (batchJobs renders 0 pairs ++
        [BAction.kill KillOutcome.killed]) =
        (BAction.spawnChrome :: batchJobs renders 0 pairs) ++
        [BAction.kill KillOutcome.killed] from rfl]
    exact List.getLast?_concat _
  · intro j hj b hb
    rw [hg]
    have := (batchJobs_mem renders pairs 0 j hj).1 b (by simpa using hb)
    simp only [List.mem_cons, List.mem_append]
    exact Or.inr (Or.inl this)
  · intro j hj e he
    rw [hg]
    have := (batchJobs_mem renders pairs 0 j hj).2 e (by simpa using he)
    simp only [List.mem_cons, List.mem_append]
    exact Or.inr (Or.inl this)

/-- Witness for C5: three jobs where job 2 (index 1) fails; jobs 1 and 3
still save their files, job 2's error is logged, and the browser is
spawned and killed exactly once. -/
theorem generate_multiple_pdf_spec_witness :
    (generateMultiplePdf none
        (fun i => if i = 1 then Except.error "job2 failed" else Except.ok "pdf")
        [("u1", "p1"), ("u2", "p2"), ("u3", "p3")]).count BAction.spawnChrome = 1 ∧
    ((generateMultiplePdf none
        (fun i => if i = 1 then Except.error "job2 failed" else Except.ok "pdf")
        [("u1", "p1"), ("u2", "p2"), ("u3", "p3")]).filter isKillAction).length = 1 ∧
    BAction.saveFile "p1" ∈ generateMultiplePdf none
        (fun i => if i = 1 then Except.error "job2 failed" else Except.ok "pdf")
        [("u1", "p1"), ("u2", "p2"), ("u3", "p3")] ∧
    BAction.logError "job2 failed" ∈ generateMultiplePdf none
        (fun i => if i = 1 then Except.error "job2 failed" else Except.ok "pdf")
        [("u1", "p1"), ("u2", "p2"), ("u3", "p3")] ∧
    BAction.saveFile "p3" ∈ generateMultiplePdf none
        (fun i => if i = 1 then Except.error "job2 failed" else Except.ok "pdf")
        [("u1", "p1"), ("u2", "p2"), ("u3", "p3")] := by
  have h := generate_multiple_pdf_spec
    (fun i => if i = 1 then Except.error "job2 failed" else Except.ok "pdf")
    [("u1", "p1"), ("u2", "p2"), ("u3", "p3")]
  exact ⟨h.1, h.2.1,
    h.2.2.2.1 0 (by norm_num) "pdf" rfl,
    h.2.2.2.2 1 (by norm_num) "job2 failed" rfl,
    h.2.2.2.1 2 (by norm_num) "pdf" rfl⟩

/-- C6 counterexample: a failing render inside `generatePdfBuffer` is
caught and logged, but the promise then RESOLVES with `undefined`
(`Except.ok none`) rather than rejecting — the claim that the failure is
surfaced to the caller (a rejection or rethrow) is false on the code. -/
theorem single_job_error_counterexample :
    (generatePdfBuffer none true (Except.error "render failed")).1 = Except.ok none ∧
    BAction.logError "render failed" ∈
      (generatePdfBuffer none true (Except.error "render failed")).2 := by
  constructor
  · rfl
  · simp [generatePdfBuffer, connectToChrome, jsTruthyStr]

/-- C6 amended: on a render failure, both single-job entry points log the
error and swallow it: `generatePdfBuffer` resolves with `undefined`
instead of the buffer, and `generateSinglePdf` resolves normally without
having written the output file; on success `generatePdfBuffer` resolves
with the buffer. -/
theorem single_job_error_swallowed (remoteHost : Option String) (e : String)
    (filename : String) :
    (generatePdfBuffer remoteHost true (Except.error e)).1 = Except.ok none ∧
    BAction.logError e ∈ (generatePdfBuffer remoteHost true (Except.error e)).2 ∧
    (generateSinglePdf remoteHost true (Except.error e) filename).1 = Except.ok () ∧
    BAction.logError e ∈ (generateSinglePdf remoteHost true (Except.error e) filename).2 ∧
    (∀ f, BAction.saveFile f ∉
      (generateSinglePdf remoteHost true (Except.error e) filename).2) ∧
    (∀ b, (generatePdfBuffer remoteHost true (Except.ok b)).1 = Except.ok (some b)) := by
  by_cases h : jsTruthyStr remoteHost <;>
    simp [generatePdfBuffer, generateSinglePdf, connectToChrome, h]

/-- Witness for C6 amended, at a concrete failing render with no remote
host. -/
theorem single_job_error_swallowed_witness :
    (generatePdfBuffer none true (Except.error "boom")).1 = Except.ok none ∧
    BAction.logError "boom" ∈
      (generateSinglePdf none true (Except.error "boom") "out.pdf").2 ∧
    BAction.saveFile "out.pdf" ∉
      (generateSinglePdf none true (Except.error "boom") "out.pdf").2 :=
  ⟨(single_job_error_swallowed none "boom" "out.pdf").1,
   (single_job_error_swallowed none "boom" "out.pdf").2.2.2.1,
   (single_job_error_swallowed none "boom" "out.pdf").2.2.2.2.1 "out.pdf"⟩

end RenderPdfModel
